import Mathlib

/-!
Verification of the pump-sizing calculation engine (`pump_sizing_app.py`,
class `PumpSizingCalculator`) against its specification.

Modelling conventions:
* Python floats are modelled as real numbers; the IEEE value `float('inf')`,
  which the engine uses as an explicit sentinel, is modelled by a dedicated
  constructor of `FVal`.  Rounding error is outside the model.
* Python `None` is modelled by `Option`.
* The Streamlit `st.error` side channel is modelled by a list of diagnostic
  strings returned alongside each value.
-/

/-- The two unit systems the calculator recognises (`self.unit_system`). -/
inductive UnitSystem where
  | imperial
  | si
deriving DecidableEq, Repr

/-- A Python float that is either finite or the sentinel `float('inf')`. -/
inductive FVal where
  | fin (x : ℝ)
  | inf

/-- Python `+` on the float values the engine can produce (`fin` or `+inf`;
`-inf`/`NaN` never arise because losses are added to finite numbers). -/
def FVal.add : FVal → FVal → FVal
  | .fin x, .fin y => .fin (x + y)
  | .inf, _ => .inf
  | _, .inf => .inf

/-- The static fitting table `fitting_equivalent_lengths_D` (L/D ratios);
`none` models a key absent from the Python dict. -/
def fitting_equivalent_lengths_D : String → Option ℚ := fun s =>
  if s = "gate_valve_open" then some 8
  else if s = "globe_valve_open" then some 340
  else if s = "check_valve_swing" then some 100
  else if s = "check_valve_lift" then some 600
  else if s = "45_elbow_std" then some 16
  else if s = "90_elbow_std" then some 30
  else if s = "90_elbow_long_radius" then some 20
  else if s = "tee_branch" then some 60
  else if s = "tee_run" then some 20
  else if s = "foot_valve_strainer" then some 420
  else if s = "entrance_sharp" then some (1/2)
  else if s = "exit_loss" then some 1
  else none

/-- Method `_convert_flow_rate_for_hw`: imperial passes the flow rate through, SI
divides by 3600. -/
noncomputable def convert_flow_rate_for_hw : UnitSystem → ℝ → ℝ
  | .imperial, flow_rate => flow_rate
  | .si, flow_rate => flow_rate / 3600

/-- Method `_get_hw_constants`: the Hazen-Williams coefficient and diameter exponent
for each unit system. -/
noncomputable def get_hw_constants : UnitSystem → ℝ × ℝ
  | .imperial => (0.002083, 4.8655)
  | .si => (10.67, 4.8655)

/-- The diameter put into the Hazen-Williams formula (`D_for_formula`):
inches are converted to feet for imperial, meters are used directly for SI. -/
noncomputable def d_for_formula : UnitSystem → ℝ → ℝ
  | .imperial, pipe_id => pipe_id / 12
  | .si, pipe_id => pipe_id

open Classical in
/-- One iteration of the fitting loop in `_calculate_friction_loss_hw`: the
equivalent length contributed by one `(fitting_type, quantity)` entry.  A key
missing from the table (`None`) or a zero ratio is falsy in
`if l_d_ratio and quantity > 0`, so it contributes nothing. -/
noncomputable def equivalent_length_of (u : UnitSystem) (pipe_id : ℝ)
    (ft : String × ℝ) : ℝ :=
  match fitting_equivalent_lengths_D ft.1 with
  | none => 0
  | some r =>
    if (r : ℝ) ≠ 0 ∧ 0 < ft.2 then
      ft.2 * (r : ℝ) * (match u with | .imperial => pipe_id / 12 | .si => pipe_id)
    else 0

/-- The total equivalent length added by the fitting loop. -/
noncomputable def equiv_len (u : UnitSystem) (pipe_id : ℝ)
    (fittings : List (String × ℝ)) : ℝ :=
  (fittings.map (equivalent_length_of u pipe_id)).sum

/-- The finite value computed on the formula branch of
`_calculate_friction_loss_hw`:
`(K_hw * total_equivalent_length * (Q_hw / c_factor)**1.852) / (D_for_formula**D_exp)`. -/
noncomputable def hw_formula (u : UnitSystem) (flow_rate pipe_length pipe_id c_factor : ℝ)
    (fittings : List (String × ℝ)) : ℝ :=
  (get_hw_constants u).1 * (pipe_length + equiv_len u pipe_id fittings) *
      (convert_flow_rate_for_hw u flow_rate / c_factor) ^ (1.852 : ℝ) /
    d_for_formula u pipe_id ^ (get_hw_constants u).2

open Classical in
/-- Method `_calculate_friction_loss_hw`.  Returns the loss together with the list of
diagnostics sent to `st.error`.  The guard
`if not all([flow_rate, pipe_id, c_factor]) or pipe_id <= 0: return 0.0`
treats `None` and `0` as falsy (when one of the three is falsy, Python's `or`
short-circuits before evaluating `pipe_id <= 0`, so a missing `pipe_id` also
lands in the guard).  The two `ZeroDivisionError` raises inside the `try`
block are kept even though the guard makes them unreachable for numeric
arguments. -/
noncomputable def calculate_friction_loss_hw (u : UnitSystem)
    (flow_rate : Option ℝ) (pipe_length : ℝ) (pipe_id : Option ℝ)
    (c_factor : Option ℝ) (fittings : List (String × ℝ)) : FVal × List String :=
  match flow_rate, pipe_id, c_factor with
  | some q, some d, some c =>
    if q = 0 ∨ d = 0 ∨ c = 0 ∨ d ≤ 0 then (.fin 0, [])
    else if c = 0 then
      (.inf, ["Friction Loss Error: C-Factor cannot be zero."])
    else if d_for_formula u d = 0 then
      (.inf, ["Friction Loss Error: Pipe ID cannot be zero."])
    else
      (.fin (hw_formula u q pipe_length d c fittings), [])
  | _, _, _ => (.fin 0, [])

/-- Python `key.replace('_', ' ')` on a field name: the pattern is the single
character `_`, so the replacement is a character-wise map. -/
def underscores_to_spaces (s : String) : String :=
  ⟨s.data.map fun c => if c = '_' then ' ' else c⟩

/-- The held configuration `self.inputs`: every value may be `None`. -/
structure Inputs where
  fluid_sg : Option ℝ
  pump_efficiency : Option ℝ
  flow_rate : Option ℝ
  suction_static_head : Option ℝ
  discharge_static_head : Option ℝ
  suction_pressure : Option ℝ
  discharge_pressure : Option ℝ
  suction_pipe_length : Option ℝ
  suction_pipe_id : Option ℝ
  suction_c_factor : Option ℝ
  suction_fittings : Option (List (String × ℝ))
  discharge_pipe_length : Option ℝ
  discharge_pipe_id : Option ℝ
  discharge_c_factor : Option ℝ
  discharge_fittings : Option (List (String × ℝ))

/-- The initial `self.inputs` dict built in `__init__`. -/
def default_inputs : Inputs where
  fluid_sg := some 1.0
  pump_efficiency := some 0.70
  flow_rate := none
  suction_static_head := none
  discharge_static_head := none
  suction_pressure := some 0.0
  discharge_pressure := some 0.0
  suction_pipe_length := some 0.0
  suction_pipe_id := none
  suction_c_factor := some 120
  suction_fittings := some []
  discharge_pipe_length := some 0.0
  discharge_pipe_id := none
  discharge_c_factor := some 120
  discharge_fittings := some []

/-- The list `self.inputs.items()` in dict insertion order, each key paired with
whether its value `is None`. -/
def input_entries (inp : Inputs) : List (String × Bool) :=
  [("fluid_sg", inp.fluid_sg.isNone),
   ("pump_efficiency", inp.pump_efficiency.isNone),
   ("flow_rate", inp.flow_rate.isNone),
   ("suction_static_head", inp.suction_static_head.isNone),
   ("discharge_static_head", inp.discharge_static_head.isNone),
   ("suction_pressure", inp.suction_pressure.isNone),
   ("discharge_pressure", inp.discharge_pressure.isNone),
   ("suction_pipe_length", inp.suction_pipe_length.isNone),
   ("suction_pipe_id", inp.suction_pipe_id.isNone),
   ("suction_c_factor", inp.suction_c_factor.isNone),
   ("suction_fittings", inp.suction_fittings.isNone),
   ("discharge_pipe_length", inp.discharge_pipe_length.isNone),
   ("discharge_pipe_id", inp.discharge_pipe_id.isNone),
   ("discharge_c_factor", inp.discharge_c_factor.isNone),
   ("discharge_fittings", inp.discharge_fittings.isNone)]

/-- The first key whose value is `None`, i.e. the key named by the
`ValueError` the validation loop raises (dict iteration order). -/
def first_missing (inp : Inputs) : Option String :=
  ((input_entries inp).find? fun p => p.2).map fun p => p.1

/-- The message of the `ValueError` raised for a missing input:
`f"Input for '{key.replace('_', ' ')}' is missing."` -/
def missing_msg (k : String) : String :=
  "Input for \x27" ++ underscores_to_spaces k ++ "\x27 is missing."

/-- The dict `self.results` after a successful calculation (the Python dict; `{}`
before any calculation or after a failed one is modelled by `none` in the
enclosing `Engine`). -/
structure Results where
  P1_head : ℝ
  P2_head : ℝ
  hf_suction : FVal
  hf_discharge : FVal
  hf_total : FVal
  TDH : FVal
  required_power : FVal
  power_unit : String

/-- One `PumpSizingCalculator` instance: the unit system fixed at
construction, the held inputs and the stored results. -/
structure Engine where
  unit_system : UnitSystem
  inputs : Inputs
  results : Option Results

/-- Python `str.lower()` (character-wise lowering; the selectors of interest are
ASCII, where Python and Unicode lowering agree). -/
def py_lower (s : String) : String := ⟨s.data.map Char.toLower⟩

/-- Constructor `PumpSizingCalculator.__init__`: lower-cases the selector, rejects
anything other than `"imperial"`/`"si"` with a `ValueError`, and otherwise
returns a fresh engine holding the default inputs and empty results. -/
def PumpSizingCalculator.mk_engine (unit_system : String) : Except String Engine :=
  let u := py_lower unit_system
  if u = "imperial" then .ok ⟨.imperial, default_inputs, none⟩
  else if u = "si" then .ok ⟨.si, default_inputs, none⟩
  else .error "Unit system must be \x27imperial\x27 or \x27si\x27."

open Classical in
/-- Method `calculate_pump_sizing`.  Returns the engine after the call, the message
of the raised `ValueError` if validation failed (`none` on success), and the
diagnostics the friction-loss calls sent to `st.error`.  `self.results` is
cleared first; validation then walks the inputs in dict order.  On the
formula branches Python's floats are finite or `+inf` (`FVal`); when `TDH`
is the `+inf` sentinel the power expression stays infinite in the model
(that case is unreachable: the friction computation never actually returns
`+inf`, see `friction_loss_never_inf`). -/
noncomputable def calculate_pump_sizing (e : Engine) : Engine × Option String × List String :=
  let e1 : Engine := { e with results := none }
  let inp := e1.inputs
  match first_missing inp with
  | some k => (e1, some (missing_msg k), [])
  | none =>
    let Q : ℝ := inp.flow_rate.getD 0
    let SG : ℝ := inp.fluid_sg.getD 0
    let pump_eff : ℝ := inp.pump_efficiency.getD 0
    let Z1 : ℝ := inp.suction_static_head.getD 0
    let Z2 : ℝ := inp.discharge_static_head.getD 0
    let P1 : ℝ := inp.suction_pressure.getD 0
    let P2 : ℝ := inp.discharge_pressure.getD 0
    let pressure_conversion : ℝ :=
      match e1.unit_system with
      | .imperial => 2.307 / SG
      | .si => 0.102 / SG
    let P1_head := P1 * pressure_conversion
    let P2_head := P2 * pressure_conversion
    let hf_s := calculate_friction_loss_hw e1.unit_system inp.flow_rate
      (inp.suction_pipe_length.getD 0) inp.suction_pipe_id
      inp.suction_c_factor (inp.suction_fittings.getD [])
    let hf_d := calculate_friction_loss_hw e1.unit_system inp.flow_rate
      (inp.discharge_pipe_length.getD 0) inp.discharge_pipe_id
      inp.discharge_c_factor (inp.discharge_fittings.getD [])
    let hf_total := FVal.add hf_s.1 hf_d.1
    let TDH := FVal.add (.fin ((Z2 - Z1) + (P2_head - P1_head))) hf_total
    let pw : FVal × String :=
      match e1.unit_system with
      | .imperial =>
        (if 0 < pump_eff then
           (match TDH with
            | .fin t => .fin (Q * t * SG / (3960 * pump_eff))
            | .inf => .inf)
         else .inf, "BHP")
      | .si =>
        let Q_m3_s := Q / 3600
        (if 0 < pump_eff then
           (match TDH with
            | .fin t => .fin (Q_m3_s * t * (SG * 1000) * 9.81 / (pump_eff * 1000))
            | .inf => .inf)
         else .inf, "kW")
    let r : Results :=
      { P1_head := P1_head, P2_head := P2_head,
        hf_suction := hf_s.1, hf_discharge := hf_d.1, hf_total := hf_total,
        TDH := TDH, required_power := pw.1, power_unit := pw.2 }
    ({ e1 with results := some r }, none, hf_s.2 ++ hf_d.2)

/-- Rounding for the 2-decimal format on the exact real value: the number of cents, rounded
half-to-even as IEEE formatting does at a tie.  (Double rounding through the
binary float is outside the model.) -/
noncomputable def round_cents (x : ℝ) : ℤ :=
  let f := ⌊x * 100⌋
  if x * 100 - f < 1 / 2 then f
  else if 1 / 2 < x * 100 - f then f + 1
  else if Even f then f else f + 1

/-- Exactly two decimal digits. -/
def two_digit_string (m : ℕ) : String :=
  ⟨[Nat.digitChar (m / 10), Nat.digitChar (m % 10)]⟩

/-- The decimal string `f"{x:.2f}"` produces for a finite value.  (For
values in (-0.005, 0) Python keeps the sign, printing `-0.00`; the model
prints `0.00` — the shape is the same.) -/
noncomputable def format2 (x : ℝ) : String :=
  let n := round_cents x
  (if n < 0 then "-" else "") ++ toString (n.natAbs / 100) ++ "." ++
    two_digit_string (n.natAbs % 100)

/-- The local `format_val` of `get_results_summary`: every stored value is
an `int`/`float`, so it is formatted with `.2f`; Python renders
`f"{float('inf'):.2f}"` as the three-character string `inf`. -/
noncomputable def format_val (v : FVal) : String :=
  match v with
  | .fin x => format2 x
  | .inf => "inf"

/-- Method `get_results_summary`: pure formatting of the stored results. -/
noncomputable def get_results_summary (e : Engine) : List String :=
  match e.results with
  | none => ["No results to display. Please run calculation."]
  | some r =>
    let unit_head := match e.unit_system with | .imperial => "feet" | .si => "meters"
    ["### Calculation Results",
     "**Total Dynamic Head (TDH):** " ++ format_val r.TDH ++ " " ++ unit_head,
     "**Required Power:** " ++ format_val r.required_power ++ " " ++ r.power_unit,
     "---",
     "#### Head Breakdown",
     "**Total Friction Loss:** " ++ format_val r.hf_total ++ " " ++ unit_head,
     " â€¢  _Suction Loss:_ " ++ format_val r.hf_suction ++ " " ++ unit_head,
     " â€¢  _Discharge Loss:_ " ++ format_val r.hf_discharge ++ " " ++ unit_head]

/-- The diameter-independent factor a fitting entry contributes to the
equivalent length (`quantity * ratio` when counted, else 0). -/
noncomputable def fitting_coef_of (p : String × ℝ) : ℝ :=
  match fitting_equivalent_lengths_D p.1 with
  | none => 0
  | some r => if (r : ℝ) ≠ 0 ∧ 0 < p.2 then p.2 * (r : ℝ) else 0

/-- The total diameter-independent fitting factor of a fitting list. -/
noncomputable def fitting_coef (fts : List (String × ℝ)) : ℝ :=
  (fts.map fitting_coef_of).sum

/-- Modelled from the spec wording of the core Hazen-Williams formula:
`hf = K × L_e × (Q_norm / C)^1.852 / D_f^4.8655`, with `L_e` the pipe length
plus `quantity × ratio × diameter-in-length-units` for every fitting present
with quantity > 0 and a known nonzero L/D ratio, `Q_norm` the flow rate
(imperial) or flow rate / 3600 (SI), `D_f` the diameter in feet
(imperial, K = 0.002083) or meters (SI, K = 10.67). -/
noncomputable def friction_loss_spec (u : UnitSystem) (q l d c : ℝ)
    (fts : List (String × ℝ)) : ℝ :=
  (match u with | .imperial => (0.002083 : ℝ) | .si => 10.67) *
      (l + (fts.map fun p =>
        match fitting_equivalent_lengths_D p.1 with
        | some ratio =>
          if 0 < p.2 ∧ (ratio : ℝ) ≠ 0 then
            p.2 * (ratio : ℝ) * (match u with | .imperial => d / 12 | .si => d)
          else 0
        | none => 0).sum) *
      ((match u with | .imperial => q | .si => q / 3600) / c) ^ (1.852 : ℝ) /
    (match u with | .imperial => d / 12 | .si => d) ^ (4.8655 : ℝ)

/-- A complete imperial configuration whose suction C-factor is zero
(flow 100 GPM, suction 20 ft of 6 in pipe, discharge 100 ft of 4 in pipe,
C = 120). -/
def c1_engine_inputs : Inputs where
  fluid_sg := some 1
  pump_efficiency := some 0.75
  flow_rate := some 100
  suction_static_head := some 5
  discharge_static_head := some 50
  suction_pressure := some 0
  discharge_pressure := some 0
  suction_pipe_length := some 20
  suction_pipe_id := some 6
  suction_c_factor := some 0
  suction_fittings := some []
  discharge_pipe_length := some 100
  discharge_pipe_id := some 4
  discharge_c_factor := some 120
  discharge_fittings := some []

/-- A complete imperial configuration with zero pipe ids (so both friction
guards trip and friction is zero) and the discharge 45 below the suction. -/
def c4_engine_inputs : Inputs where
  fluid_sg := some 1
  pump_efficiency := some 0.75
  flow_rate := some 100
  suction_static_head := some 50
  discharge_static_head := some 5
  suction_pressure := some 0
  discharge_pressure := some 0
  suction_pipe_length := some 0
  suction_pipe_id := some 0
  suction_c_factor := some 120
  suction_fittings := some []
  discharge_pipe_length := some 0
  discharge_pipe_id := some 0
  discharge_c_factor := some 120
  discharge_fittings := some []

/-- Some previously stored result record, used to witness C10. -/
def c10_prev_results : Results :=
  ⟨0, 0, .fin 1, .fin 2, .fin 3, .fin 45, .fin 2, "BHP"⟩

/-- A string that ends in a decimal point followed by exactly two digits —
"formatted to exactly 2 decimal places". -/
def two_decimal_shape (s : String) : Prop :=
  ∃ (p : List Char) (d1 d2 : Char),
    s.data = p ++ ['.', d1, d2] ∧ d1.isDigit = true ∧ d2.isDigit = true

/-- A complete imperial configuration with zero pump efficiency (and zero
pipe ids, so friction is zero); the division guard makes the stored power
`float('inf')`. -/
def c9_engine_inputs : Inputs where
  fluid_sg := some 1
  pump_efficiency := some 0
  flow_rate := some 100
  suction_static_head := some 5
  discharge_static_head := some 50
  suction_pressure := some 0
  discharge_pressure := some 0
  suction_pipe_length := some 0
  suction_pipe_id := some 0
  suction_c_factor := some 120
  suction_fittings := some []
  discharge_pipe_length := some 0
  discharge_pipe_id := some 0
  discharge_c_factor := some 120
  discharge_fittings := some []

/-- A stored result record used to witness the rendering contract. -/
def c9_prev_results : Results :=
  ⟨0, 0, .fin 0, .fin 0, .fin 0, .fin 45, .fin 2, "BHP"⟩

/-! ## Helper lemmas -/

set_option maxHeartbeats 1000000 in
theorem catalog_nonneg (s : String) (r : ℚ)
    (h : fitting_equivalent_lengths_D s = some r) : 0 ≤ r := by
  unfold fitting_equivalent_lengths_D at h
  split_ifs at h <;>
    first
      | exact Option.noConfusion h
      | (injection h with h; subst h; norm_num)

theorem hw_K_pos (u : UnitSystem) : 0 < (get_hw_constants u).1 := by
  cases u <;> norm_num [get_hw_constants]

theorem hw_exp_eq (u : UnitSystem) : (get_hw_constants u).2 = 4.8655 := by
  cases u <;> norm_num [get_hw_constants]

theorem d_for_formula_pos (u : UnitSystem) {d : ℝ} (hd : 0 < d) :
    0 < d_for_formula u d := by
  cases u <;> simp only [d_for_formula] <;> positivity

theorem d_for_formula_ne_zero (u : UnitSystem) {d : ℝ} (hd : d ≠ 0) :
    d_for_formula u d ≠ 0 := by
  cases u <;> simp only [d_for_formula] <;>
    first
      | exact div_ne_zero hd (by norm_num)
      | exact hd

/-- On a guard-passing call, `_calculate_friction_loss_hw` reaches the formula
branch: the result is the finite Hazen-Williams value and no diagnostic is
emitted (the two `ZeroDivisionError` raises are unreachable). -/
theorem friction_formula_eq (u : UnitSystem) (q l d c : ℝ)
    (fts : List (String × ℝ)) (hq : q ≠ 0) (hd : 0 < d) (hc : c ≠ 0) :
    calculate_friction_loss_hw u (some q) l (some d) (some c) fts =
      (.fin (hw_formula u q l d c fts), []) := by
  have hguard : ¬(q = 0 ∨ d = 0 ∨ c = 0 ∨ d ≤ 0) := by
    push_neg; exact ⟨hq, hd.ne', hc, hd⟩
  simp only [calculate_friction_loss_hw]
  rw [if_neg hguard, if_neg hc, if_neg (d_for_formula_ne_zero u hd.ne')]

/-- The friction computation always lands in the guard or the formula branch:
the loss is finite and nothing is sent to `st.error`. -/
theorem friction_loss_never_inf (u : UnitSystem) (flow_rate : Option ℝ)
    (pipe_length : ℝ) (pipe_id c_factor : Option ℝ) (fts : List (String × ℝ)) :
    (∃ x, (calculate_friction_loss_hw u flow_rate pipe_length pipe_id c_factor fts).1 = .fin x) ∧
      (calculate_friction_loss_hw u flow_rate pipe_length pipe_id c_factor fts).2 = [] := by
  rcases flow_rate with _ | q <;> rcases pipe_id with _ | d <;> rcases c_factor with _ | c <;>
    simp only [calculate_friction_loss_hw] <;>
    try exact ⟨⟨0, rfl⟩, trivial⟩
  by_cases hguard : q = 0 ∨ d = 0 ∨ c = 0 ∨ d ≤ 0
  · rw [if_pos hguard]; exact ⟨⟨0, rfl⟩, rfl⟩
  · have h' := hguard
    push_neg at h'
    rw [if_neg hguard, if_neg h'.2.2.1, if_neg (d_for_formula_ne_zero u h'.2.1)]
    exact ⟨⟨_, rfl⟩, rfl⟩

/-- The degenerate-case guard of `_calculate_friction_loss_hw`: a falsy
(`None`/zero) flow rate, pipe id or C-factor, or a nonpositive pipe id,
returns 0.0 with no diagnostic. -/
theorem friction_guard_zero (u : UnitSystem) (pipe_length : ℝ)
    (flow_rate pipe_id c_factor : Option ℝ) (fittings : List (String × ℝ))
    (h : flow_rate = none ∨ flow_rate = some 0 ∨ pipe_id = none ∨ pipe_id = some 0 ∨
         c_factor = none ∨ c_factor = some 0 ∨ ∃ d, pipe_id = some d ∧ d ≤ 0) :
    calculate_friction_loss_hw u flow_rate pipe_length pipe_id c_factor fittings =
      (.fin 0, []) := by
  rcases flow_rate with _ | q <;> rcases pipe_id with _ | d <;> rcases c_factor with _ | c <;>
    (simp only [calculate_friction_loss_hw]; try rfl)
  have hg : q = 0 ∨ d = 0 ∨ c = 0 ∨ d ≤ 0 := by
    rcases h with h | h | h | h | h | h | ⟨d', hd', hle⟩ <;> simp_all
  rw [if_pos hg]

theorem fitting_coef_of_nonneg (p : String × ℝ) : 0 ≤ fitting_coef_of p := by
  unfold fitting_coef_of
  cases hcat : fitting_equivalent_lengths_D p.1
  · exact le_refl 0
  · dsimp only
    split_ifs with h
    · have hr := catalog_nonneg _ _ hcat
      exact mul_nonneg h.2.le (by exact_mod_cast hr)
    · exact le_refl 0

theorem fitting_coef_nonneg (fts : List (String × ℝ)) : 0 ≤ fitting_coef fts :=
  List.sum_nonneg fun x hx => by
    obtain ⟨p, _, rfl⟩ := List.mem_map.mp hx
    exact fitting_coef_of_nonneg p

theorem equivalent_length_of_eq (u : UnitSystem) (d : ℝ) (p : String × ℝ) :
    equivalent_length_of u d p = fitting_coef_of p * d_for_formula u d := by
  unfold equivalent_length_of fitting_coef_of
  cases hcat : fitting_equivalent_lengths_D p.1
  · simp
  · dsimp only
    split_ifs
    · cases u <;> (simp only [d_for_formula]; try ring)
    · simp

/-- The fitting loop's total factors through the formula diameter. -/
theorem equiv_len_eq (u : UnitSystem) (d : ℝ) (fts : List (String × ℝ)) :
    equiv_len u d fts = fitting_coef fts * d_for_formula u d := by
  unfold equiv_len fitting_coef
  induction fts with
  | nil => simp
  | cons p l ih =>
    simp only [List.map_cons, List.sum_cons, ih, equivalent_length_of_eq, add_mul]

theorem equiv_len_nonneg (u : UnitSystem) {d : ℝ} (hd : 0 < d)
    (fts : List (String × ℝ)) : 0 ≤ equiv_len u d fts := by
  rw [equiv_len_eq]
  exact mul_nonneg (fitting_coef_nonneg fts) (d_for_formula_pos u hd).le

theorem convert_flow_pos (u : UnitSystem) {q : ℝ} (hq : 0 < q) :
    0 < convert_flow_rate_for_hw u q := by
  cases u <;> simp only [convert_flow_rate_for_hw] <;> positivity

theorem convert_flow_strict (u : UnitSystem) {q₁ q₂ : ℝ} (h : q₁ < q₂) :
    convert_flow_rate_for_hw u q₁ < convert_flow_rate_for_hw u q₂ := by
  cases u <;> simp only [convert_flow_rate_for_hw]
  · exact h
  · exact (div_lt_div_iff_of_pos_right (by norm_num)).mpr h

theorem d_for_formula_strict (u : UnitSystem) {d₁ d₂ : ℝ} (h : d₁ < d₂) :
    d_for_formula u d₁ < d_for_formula u d₂ := by
  cases u <;> simp only [d_for_formula]
  · exact (div_lt_div_iff_of_pos_right (by norm_num)).mpr h
  · exact h

/-- Rewriting `hw_formula` with the fitting total factored through the diameter. -/
theorem hw_formula_factored (u : UnitSystem) (q l d c : ℝ)
    (fts : List (String × ℝ)) :
    hw_formula u q l d c fts =
      (get_hw_constants u).1 * (l + fitting_coef fts * d_for_formula u d) *
          (convert_flow_rate_for_hw u q / c) ^ (1.852 : ℝ) /
        d_for_formula u d ^ (4.8655 : ℝ) := by
  unfold hw_formula
  rw [equiv_len_eq, hw_exp_eq]

/-- For a positive base length, a nonnegative linear coefficient and an
exponent above 1, `(l + γ x) / x ^ E` strictly decreases on positive `x`. -/
theorem linear_over_rpow_strict_anti (l γ E : ℝ) (hl : 0 < l) (hγ : 0 ≤ γ)
    (hE : 1 < E) {x₁ x₂ : ℝ} (hx1 : 0 < x₁) (h12 : x₁ < x₂) :
    (l + γ * x₂) / x₂ ^ E < (l + γ * x₁) / x₁ ^ E := by
  have hx2 : 0 < x₂ := hx1.trans h12
  have hE0 : (0 : ℝ) < E := lt_trans one_pos hE
  have key : ∀ x : ℝ, 0 < x → (l + γ * x) / x ^ E = l / x ^ E + γ / x ^ (E - 1) := by
    intro x hx
    have hsub : x ^ (E - 1) = x ^ E / x := by
      rw [Real.rpow_sub hx, Real.rpow_one]
    have hmul : γ / x ^ (E - 1) = γ * x / x ^ E := by
      rw [hsub, div_div_eq_mul_div]
    rw [hmul, div_add_div_same]
  rw [key x₁ hx1, key x₂ hx2]
  have h1 : l / x₂ ^ E < l / x₁ ^ E :=
    div_lt_div_of_pos_left hl (Real.rpow_pos_of_pos hx1 E)
      (Real.rpow_lt_rpow hx1.le h12 hE0)
  have h2 : γ / x₂ ^ (E - 1) ≤ γ / x₁ ^ (E - 1) :=
    div_le_div_of_nonneg_left hγ (Real.rpow_pos_of_pos hx1 (E - 1))
      (Real.rpow_le_rpow hx1.le h12.le (by linarith))
  linarith

/-! ## Claims -/

/-- C2: whenever flow rate, pipe internal diameter or C-factor is
zero/falsy/missing, or the diameter is ≤ 0, `_calculate_friction_loss_hw`
returns exactly 0.0, without error and without emitting any diagnostic. -/
theorem C2_guard_returns_zero (u : UnitSystem) (pipe_length : ℝ)
    (flow_rate pipe_id c_factor : Option ℝ) (fittings : List (String × ℝ))
    (h : flow_rate = none ∨ flow_rate = some 0 ∨ pipe_id = none ∨ pipe_id = some 0 ∨
         c_factor = none ∨ c_factor = some 0 ∨ ∃ d, pipe_id = some d ∧ d ≤ 0) :
    calculate_friction_loss_hw u flow_rate pipe_length pipe_id c_factor fittings =
      (.fin 0, []) :=
  friction_guard_zero u pipe_length flow_rate pipe_id c_factor fittings h

/-- C2 witness: a concrete guard-triggering call (zero flow rate). -/
theorem C2_guard_returns_zero_witness :
    calculate_friction_loss_hw .imperial (some 0) 10 (some 5) (some 130) [] =
      (.fin 0, []) :=
  C2_guard_returns_zero .imperial 10 (some 0) (some 5) (some 130) []
    (Or.inr (Or.inl rfl))

/-- C1 counterexample: with nonzero flow (100), nonzero diameter (6), nonzero
length (20) but zero C-factor, the friction computation returns 0.0 with no
diagnostic — not positive infinity with a diagnostic — in both unit systems:
the zero C-factor is falsy and already trips the degenerate-case guard. -/
theorem C1_counterexample :
    calculate_friction_loss_hw .imperial (some 100) 20 (some 6) (some 0) [] = (.fin 0, []) ∧
    (calculate_friction_loss_hw .imperial (some 100) 20 (some 6) (some 0) []).1 ≠ .inf ∧
    calculate_friction_loss_hw .si (some 20) 10 (some 0.15) (some 0) [] = (.fin 0, []) ∧
    (calculate_friction_loss_hw .si (some 20) 10 (some 0.15) (some 0) []).1 ≠ .inf := by
  refine ⟨?_, ?_, ?_, ?_⟩ <;>
    simp [calculate_friction_loss_hw]

/-- C1 (amended): on a segment with nonzero flow rate, positive diameter and
a zero C-factor, the friction computation returns 0.0 for that segment via
the degenerate-case guard and emits no diagnostic (the domain-error branch
returning `+inf` is unreachable); the other segment's loss computes normally
through the Hazen-Williams formula and the overall calculation still
completes, producing a result record with no error. -/
theorem C1_zero_c_factor_guard (e : Engine) (q dd cc : ℝ)
    (hmiss : first_missing e.inputs = none)
    (hsc : e.inputs.suction_c_factor = some 0)
    (hQ : e.inputs.flow_rate = some q) (hq : q ≠ 0)
    (hdd : e.inputs.discharge_pipe_id = some dd) (hd : 0 < dd)
    (hcc : e.inputs.discharge_c_factor = some cc) (hc : cc ≠ 0) :
    (∀ l d fts, 0 < d →
      calculate_friction_loss_hw e.unit_system (some q) l (some d) (some 0) fts =
        (.fin 0, [])) ∧
    ∃ r, (calculate_pump_sizing e).1.results = some r ∧
      (calculate_pump_sizing e).2.1 = none ∧
      (calculate_pump_sizing e).2.2 = [] ∧
      r.hf_suction = .fin 0 ∧
      r.hf_discharge = .fin (hw_formula e.unit_system q
        (e.inputs.discharge_pipe_length.getD 0) dd cc
        (e.inputs.discharge_fittings.getD [])) := by
  have hs0 : calculate_friction_loss_hw e.unit_system e.inputs.flow_rate
      (e.inputs.suction_pipe_length.getD 0) e.inputs.suction_pipe_id
      e.inputs.suction_c_factor (e.inputs.suction_fittings.getD []) = (.fin 0, []) := by
    rw [hsc]
    exact friction_guard_zero _ _ _ _ _ _
      (Or.inr (Or.inr (Or.inr (Or.inr (Or.inr (Or.inl rfl))))))
  have hdg : calculate_friction_loss_hw e.unit_system e.inputs.flow_rate
      (e.inputs.discharge_pipe_length.getD 0) e.inputs.discharge_pipe_id
      e.inputs.discharge_c_factor (e.inputs.discharge_fittings.getD []) =
      (.fin (hw_formula e.unit_system q (e.inputs.discharge_pipe_length.getD 0) dd cc
        (e.inputs.discharge_fittings.getD [])), []) := by
    rw [hQ, hdd, hcc]
    exact friction_formula_eq _ _ _ _ _ _ hq hd hc
  constructor
  · intro l d fts _
    exact friction_guard_zero e.unit_system l (some q) (some d) (some 0) fts
      (Or.inr (Or.inr (Or.inr (Or.inr (Or.inr (Or.inl rfl))))))
  · simp only [calculate_pump_sizing, hmiss, hs0, hdg]
    exact ⟨_, rfl, trivial, rfl, rfl, rfl⟩

/-- C1 amended witness: the concrete configuration above completes with a
zero suction loss, no diagnostics, and a normally computed discharge loss. -/
theorem C1_zero_c_factor_guard_witness :
    ∃ r, (calculate_pump_sizing ⟨.imperial, c1_engine_inputs, none⟩).1.results = some r ∧
      (calculate_pump_sizing ⟨.imperial, c1_engine_inputs, none⟩).2.1 = none ∧
      (calculate_pump_sizing ⟨.imperial, c1_engine_inputs, none⟩).2.2 = [] ∧
      r.hf_suction = .fin 0 ∧
      r.hf_discharge = .fin (hw_formula .imperial 100 100 4 120 []) :=
  (C1_zero_c_factor_guard ⟨.imperial, c1_engine_inputs, none⟩ 100 4 120
    rfl rfl rfl (by norm_num) rfl (by norm_num) rfl (by norm_num)).2

/-- C6: whenever some held input field is `None` at calculation time, the
calculation raises the `ValueError` naming the (first such) field with
underscores replaced by spaces, and no result record is produced; moreover a
configuration with a `None` field always has such a first missing key. -/
theorem C6_missing_input (e : Engine) (k : String)
    (hk : first_missing e.inputs = some k) :
    (∃ p ∈ input_entries e.inputs, p.1 = k ∧ p.2 = true) ∧
    (calculate_pump_sizing e).2.1 =
      some ("Input for \x27" ++ underscores_to_spaces k ++ "\x27 is missing.") ∧
    (calculate_pump_sizing e).1.results = none ∧
    (∀ inp : Inputs, (∃ p ∈ input_entries inp, p.2 = true) →
      ∃ k', first_missing inp = some k') := by
  refine ⟨?_, ?_, ?_, ?_⟩
  · rcases Option.map_eq_some'.mp hk with ⟨p, hfind, hp1⟩
    exact ⟨p, List.mem_of_find?_eq_some hfind, hp1, List.find?_some hfind⟩
  · simp [calculate_pump_sizing, hk, missing_msg]
  · simp [calculate_pump_sizing, hk]
  · intro inp ⟨p, hmem, hp⟩
    have : ((input_entries inp).find? fun p => p.2).isSome :=
      List.find?_isSome.mpr ⟨p, hmem, hp⟩
    rcases Option.isSome_iff_exists.mp this with ⟨p', hp'⟩
    exact ⟨p'.1, by simp [first_missing, hp']⟩

/-- C6 witness: with the default inputs (flow rate absent), the calculation
fails with the message naming `flow rate` and stores no results. -/
theorem C6_missing_input_witness :
    (calculate_pump_sizing ⟨.imperial, default_inputs, none⟩).2.1 =
      some "Input for \x27flow rate\x27 is missing." ∧
    (calculate_pump_sizing ⟨.imperial, default_inputs, none⟩).1.results = none := by
  have h := C6_missing_input ⟨.imperial, default_inputs, none⟩ "flow_rate" rfl
  exact ⟨by rw [h.2.1]; rfl, h.2.2.1⟩

/-- C8: construction accepts exactly the selectors whose lower-casing is
`"imperial"`/`"si"`, binding the corresponding unit system, and rejects any
other string with the `ValueError`; the unit system is never changed
afterwards (the calculation returns an engine with the same unit system). -/
theorem C8_construction (s : String) :
    (py_lower s = "imperial" →
      PumpSizingCalculator.mk_engine s = .ok ⟨.imperial, default_inputs, none⟩) ∧
    (py_lower s = "si" →
      PumpSizingCalculator.mk_engine s = .ok ⟨.si, default_inputs, none⟩) ∧
    (py_lower s ≠ "imperial" → py_lower s ≠ "si" →
      PumpSizingCalculator.mk_engine s =
        .error "Unit system must be \x27imperial\x27 or \x27si\x27.") ∧
    (∀ e : Engine, (calculate_pump_sizing e).1.unit_system = e.unit_system) := by
  refine ⟨?_, ?_, ?_, ?_⟩
  · intro h
    simp only [PumpSizingCalculator.mk_engine]
    rw [h]
    rfl
  · intro h
    simp only [PumpSizingCalculator.mk_engine]
    rw [h]
    rfl
  · intro h1 h2
    simp only [PumpSizingCalculator.mk_engine]
    rw [if_neg h1, if_neg h2]
  · intro e
    simp only [calculate_pump_sizing]
    cases hm : first_missing e.inputs <;> simp [hm]

/-- C8 witness: `"Imperial"` and `"SI"` are accepted case-insensitively with
the matching unit system; `"metric"` is rejected. -/
theorem C8_construction_witness :
    PumpSizingCalculator.mk_engine "Imperial" = .ok ⟨.imperial, default_inputs, none⟩ ∧
    PumpSizingCalculator.mk_engine "SI" = .ok ⟨.si, default_inputs, none⟩ ∧
    PumpSizingCalculator.mk_engine "metric" =
      .error "Unit system must be \x27imperial\x27 or \x27si\x27." :=
  ⟨(C8_construction "Imperial").1 (by decide),
   (C8_construction "SI").2.1 (by decide),
   (C8_construction "metric").2.2.1 (by decide) (by decide)⟩

/-- C10: when the calculation fails on a missing input, the previously
stored results have already been cleared, so rendering afterwards gives the
single no-results line. -/
theorem C10_results_cleared_on_failure (e : Engine) (k : String)
    (hk : first_missing e.inputs = some k) :
    (calculate_pump_sizing e).1.results = none ∧
    get_results_summary (calculate_pump_sizing e).1 =
      ["No results to display. Please run calculation."] := by
  have h1 : (calculate_pump_sizing e).1 = { e with results := none } := by
    simp [calculate_pump_sizing, hk]
  rw [h1]
  exact ⟨rfl, rfl⟩

/-- C3: on every guard-passing segment input (nonzero flow and C-factor,
positive diameter) the code's friction loss equals the spec's formula, with
no diagnostic. -/
theorem C3_friction_matches_spec (u : UnitSystem) (q l d c : ℝ)
    (fts : List (String × ℝ)) (hq : q ≠ 0) (hd : 0 < d) (hc : c ≠ 0) :
    calculate_friction_loss_hw u (some q) l (some d) (some c) fts =
      (.fin (friction_loss_spec u q l d c fts), []) := by
  rw [friction_formula_eq u q l d c fts hq hd hc]
  have hmap : equivalent_length_of u d = fun p : String × ℝ =>
      match fitting_equivalent_lengths_D p.1 with
      | some ratio =>
        if 0 < p.2 ∧ (ratio : ℝ) ≠ 0 then
          p.2 * (ratio : ℝ) * (match u with | .imperial => d / 12 | .si => d)
        else 0
      | none => 0 := by
    funext p
    unfold equivalent_length_of
    cases hcat : fitting_equivalent_lengths_D p.1
    · rfl
    · exact if_congr and_comm rfl rfl
  unfold hw_formula friction_loss_spec equiv_len
  rw [hmap]
  cases u <;> rfl

/-- C3 witness: the spec formula and the code agree on a concrete
guard-passing imperial segment. -/
theorem C3_friction_matches_spec_witness :
    calculate_friction_loss_hw .imperial (some 100) 20 (some 6) (some 130) [] =
      (.fin (friction_loss_spec .imperial 100 20 6 130 []), []) :=
  C3_friction_matches_spec .imperial 100 20 6 130 []
    (by norm_num) (by norm_num) (by norm_num)

/-- C4: on any complete configuration the calculation stores a result whose
pressure-heads are the gauge pressures times `2.307/SG` (imperial) or
`0.102/SG` (SI), and whose TDH is the unclamped sum
`(Z2 - Z1) + (P2_head - P1_head) + hf_total`; when both segment losses are
zero this gives `(Z2 - Z1) + (P2_head - P1_head)` exactly. -/
theorem C4_tdh_aggregation (e : Engine) (SG Z1 Z2 P1 P2 : ℝ)
    (hmiss : first_missing e.inputs = none)
    (hSG : e.inputs.fluid_sg = some SG)
    (hZ1 : e.inputs.suction_static_head = some Z1)
    (hZ2 : e.inputs.discharge_static_head = some Z2)
    (hP1 : e.inputs.suction_pressure = some P1)
    (hP2 : e.inputs.discharge_pressure = some P2) :
    ∃ r, (calculate_pump_sizing e).1.results = some r ∧
      r.P1_head = P1 * (match e.unit_system with
        | .imperial => 2.307 / SG
        | .si => 0.102 / SG) ∧
      r.P2_head = P2 * (match e.unit_system with
        | .imperial => 2.307 / SG
        | .si => 0.102 / SG) ∧
      r.hf_total = FVal.add r.hf_suction r.hf_discharge ∧
      r.TDH = FVal.add (.fin ((Z2 - Z1) + (r.P2_head - r.P1_head))) r.hf_total ∧
      (r.hf_suction = .fin 0 → r.hf_discharge = .fin 0 →
        r.TDH = .fin ((Z2 - Z1) + (r.P2_head - r.P1_head))) := by
  obtain ⟨u, inp, res⟩ := e
  simp only at hSG hZ1 hZ2 hP1 hP2
  simp only [calculate_pump_sizing, hmiss, hSG, hZ1, hZ2, hP1, hP2, Option.getD_some]
  refine ⟨_, rfl, rfl, rfl, rfl, rfl, fun h1 h2 => ?_⟩
  dsimp only at h1 h2 ⊢
  rw [h1, h2]
  simp only [FVal.add]
  norm_num

/-- C4 witness: a complete zero-friction configuration (zero pipe ids trip
the guard) with the discharge 45 below the suction: TDH comes out exactly
`(5 - 50) + (0 - 0) = -45`, negative and unclamped. -/
theorem C4_tdh_aggregation_witness :
    ∃ r, (calculate_pump_sizing ⟨.imperial, c4_engine_inputs, none⟩).1.results = some r ∧
      r.P1_head = 0 * (2.307 / 1) ∧
      r.P2_head = 0 * (2.307 / 1) ∧
      r.hf_total = FVal.add r.hf_suction r.hf_discharge ∧
      r.TDH = FVal.add (.fin ((5 - 50) + (r.P2_head - r.P1_head))) r.hf_total ∧
      (r.hf_suction = .fin 0 → r.hf_discharge = .fin 0 →
        r.TDH = .fin ((5 - 50) + (r.P2_head - r.P1_head))) :=
  C4_tdh_aggregation ⟨.imperial, c4_engine_inputs, none⟩ 1 50 5 0 0
    rfl rfl rfl rfl rfl rfl

/-- C5: on any complete configuration the TDH is finite and, when the pump
efficiency is positive, the stored power is
`Q * TDH * SG / (3960 * eff)` labelled `BHP` (imperial) or
`(Q/3600) * TDH * (SG*1000) * 9.81 / (eff*1000)` labelled `kW` (SI);
when the efficiency is ≤ 0 the power is the infinite sentinel, and in
every case no diagnostic is emitted. -/
theorem C5_power (e : Engine) (Q SG eff : ℝ)
    (hmiss : first_missing e.inputs = none)
    (hQ : e.inputs.flow_rate = some Q)
    (hSG : e.inputs.fluid_sg = some SG)
    (heff : e.inputs.pump_efficiency = some eff) :
    ∃ r, (calculate_pump_sizing e).1.results = some r ∧
      r.power_unit = (match e.unit_system with | .imperial => "BHP" | .si => "kW") ∧
      (∃ t : ℝ, r.TDH = .fin t ∧
        (0 < eff → r.required_power = .fin (match e.unit_system with
          | .imperial => Q * t * SG / (3960 * eff)
          | .si => Q / 3600 * t * (SG * 1000) * 9.81 / (eff * 1000)))) ∧
      (eff ≤ 0 → r.required_power = .inf) ∧
      (calculate_pump_sizing e).2.2 = [] := by
  obtain ⟨u, inp, res⟩ := e
  simp only at hQ hSG heff
  obtain ⟨⟨x1, hx1⟩, hd1⟩ := friction_loss_never_inf u (some Q)
    (inp.suction_pipe_length.getD 0) inp.suction_pipe_id inp.suction_c_factor
    (inp.suction_fittings.getD [])
  obtain ⟨⟨x2, hx2⟩, hd2⟩ := friction_loss_never_inf u (some Q)
    (inp.discharge_pipe_length.getD 0) inp.discharge_pipe_id inp.discharge_c_factor
    (inp.discharge_fittings.getD [])
  simp only [calculate_pump_sizing, hmiss, hQ, hSG, heff, hx1, hx2, hd1, hd2,
    Option.getD_some, FVal.add]
  refine ⟨_, rfl, ?_, ⟨_, rfl, fun hpos => ?_⟩, fun hle => ?_, by simp⟩
  · cases u <;> rfl
  · cases u <;> (dsimp only; rw [if_pos hpos])
  · cases u <;> (dsimp only; rw [if_neg (not_lt.mpr hle)])

/-- C5 witness: the imperial zero-friction configuration with SG 1,
efficiency 0.75: TDH is finite and the power matches the BHP formula. -/
theorem C5_power_witness :
    ∃ r, (calculate_pump_sizing ⟨.imperial, c4_engine_inputs, none⟩).1.results = some r ∧
      r.power_unit = "BHP" ∧
      (∃ t : ℝ, r.TDH = .fin t ∧
        (0 < (0.75 : ℝ) → r.required_power = .fin (100 * t * 1 / (3960 * 0.75)))) ∧
      ((0.75 : ℝ) ≤ 0 → r.required_power = .inf) ∧
      (calculate_pump_sizing ⟨.imperial, c4_engine_inputs, none⟩).2.2 = [] :=
  C5_power ⟨.imperial, c4_engine_inputs, none⟩ 100 1 0.75 rfl rfl rfl rfl

/-- C7: on guard-passing inputs the friction loss is the finite value
`hw_formula`, and with all parameters positive that value is strictly
increasing in flow rate, pipe length and the quantity of any catalog fitting
with positive L/D ratio, and strictly decreasing in C-factor and in pipe
internal diameter. -/
theorem C7_monotonicity (u : UnitSystem) (q l d c : ℝ)
    (fts pre post : List (String × ℝ)) (s : String) (ratio : ℚ)
    (hq : 0 < q) (hl : 0 < l) (hd : 0 < d) (hc : 0 < c)
    (hs : fitting_equivalent_lengths_D s = some ratio) (hratio : 0 < ratio) :
    (∀ q' l' d' c' fts', q' ≠ 0 → 0 < d' → c' ≠ 0 →
      calculate_friction_loss_hw u (some q') l' (some d') (some c') fts' =
        (.fin (hw_formula u q' l' d' c' fts'), [])) ∧
    (∀ q₂, q < q₂ → hw_formula u q l d c fts < hw_formula u q₂ l d c fts) ∧
    (∀ l₂, l < l₂ → hw_formula u q l d c fts < hw_formula u q l₂ d c fts) ∧
    (∀ n n₂, 0 < n → n < n₂ →
      hw_formula u q l d c (pre ++ (s, n) :: post) <
        hw_formula u q l d c (pre ++ (s, n₂) :: post)) ∧
    (∀ c₂, c < c₂ → hw_formula u q l d c₂ fts < hw_formula u q l d c fts) ∧
    (∀ d₂, d < d₂ → hw_formula u q l d₂ c fts < hw_formula u q l d c fts) := by
  have hK := hw_K_pos u
  have hD : 0 < d_for_formula u d := d_for_formula_pos u hd
  have hDE : 0 < d_for_formula u d ^ (4.8655 : ℝ) := Real.rpow_pos_of_pos hD _
  have hLe : 0 < l + fitting_coef fts * d_for_formula u d :=
    add_pos_of_pos_of_nonneg hl (mul_nonneg (fitting_coef_nonneg fts) hD.le)
  have hB : 0 < (convert_flow_rate_for_hw u q / c) ^ (1.852 : ℝ) :=
    Real.rpow_pos_of_pos (div_pos (convert_flow_pos u hq) hc) _
  refine ⟨fun q' l' d' c' fts' hq' hd' hc' =>
    friction_formula_eq u q' l' d' c' fts' hq' hd' hc', ?_, ?_, ?_, ?_, ?_⟩
  · intro q₂ h12
    rw [hw_formula_factored, hw_formula_factored]
    apply div_lt_div_of_pos_right _ hDE
    apply mul_lt_mul_of_pos_left _ (mul_pos hK hLe)
    exact Real.rpow_lt_rpow (div_pos (convert_flow_pos u hq) hc).le
      ((div_lt_div_iff_of_pos_right hc).mpr (convert_flow_strict u h12)) (by norm_num)
  · intro l₂ h12
    rw [hw_formula_factored, hw_formula_factored]
    apply div_lt_div_of_pos_right _ hDE
    apply mul_lt_mul_of_pos_right _ hB
    apply mul_lt_mul_of_pos_left _ hK
    exact add_lt_add_right h12 _
  · intro n n₂ hn h12
    rw [hw_formula_factored, hw_formula_factored]
    apply div_lt_div_of_pos_right _ hDE
    apply mul_lt_mul_of_pos_right _ hB
    apply mul_lt_mul_of_pos_left _ hK
    apply add_lt_add_left
    apply mul_lt_mul_of_pos_right _ hD
    have hsplit : ∀ m : ℝ, fitting_coef (pre ++ (s, m) :: post) =
        fitting_coef pre + (fitting_coef_of (s, m) + fitting_coef post) := by
      intro m
      simp [fitting_coef, List.map_append, List.sum_append]
    rw [hsplit n, hsplit n₂]
    apply add_lt_add_left
    apply add_lt_add_right
    have hrR : (0 : ℝ) < (ratio : ℝ) := by exact_mod_cast hratio
    have hcoef : ∀ m : ℝ, 0 < m → fitting_coef_of (s, m) = m * (ratio : ℝ) := by
      intro m hm
      unfold fitting_coef_of
      rw [hs]
      exact if_pos ⟨hrR.ne', hm⟩
    rw [hcoef n hn, hcoef n₂ (hn.trans h12)]
    exact mul_lt_mul_of_pos_right h12 hrR
  · intro c₂ h12
    rw [hw_formula_factored, hw_formula_factored]
    apply div_lt_div_of_pos_right _ hDE
    apply mul_lt_mul_of_pos_left _ (mul_pos hK hLe)
    exact Real.rpow_lt_rpow (div_pos (convert_flow_pos u hq) (hc.trans h12)).le
      (div_lt_div_of_pos_left (convert_flow_pos u hq) hc h12) (by norm_num)
  · intro d₂ h12
    rw [hw_formula_factored, hw_formula_factored]
    have rearr : ∀ D DE : ℝ,
        (get_hw_constants u).1 * (l + fitting_coef fts * D) *
            (convert_flow_rate_for_hw u q / c) ^ (1.852 : ℝ) / DE =
          ((get_hw_constants u).1 * (convert_flow_rate_for_hw u q / c) ^ (1.852 : ℝ)) *
            ((l + fitting_coef fts * D) / DE) := fun D DE => by ring
    rw [rearr, rearr]
    apply mul_lt_mul_of_pos_left _ (mul_pos hK hB)
    exact linear_over_rpow_strict_anti l (fitting_coef fts) _ hl
      (fitting_coef_nonneg fts) (by norm_num) hD (d_for_formula_strict u h12)

/-- C7 witness: concrete strict comparisons in each argument around the
imperial point (q, l, d, c) = (100, 20, 6, 130) with one open gate valve. -/
theorem C7_monotonicity_witness :
    calculate_friction_loss_hw .imperial (some 100) 20 (some 6) (some 130) [] =
      (.fin (hw_formula .imperial 100 20 6 130 []), []) ∧
    hw_formula .imperial 100 20 6 130 [("gate_valve_open", 1)] <
      hw_formula .imperial 150 20 6 130 [("gate_valve_open", 1)] ∧
    hw_formula .imperial 100 20 6 130 [("gate_valve_open", 1)] <
      hw_formula .imperial 100 30 6 130 [("gate_valve_open", 1)] ∧
    hw_formula .imperial 100 20 6 130 [("gate_valve_open", 1)] <
      hw_formula .imperial 100 20 6 130 [("gate_valve_open", 2)] ∧
    hw_formula .imperial 100 20 6 140 [("gate_valve_open", 1)] <
      hw_formula .imperial 100 20 6 130 [("gate_valve_open", 1)] ∧
    hw_formula .imperial 100 20 8 130 [("gate_valve_open", 1)] <
      hw_formula .imperial 100 20 6 130 [("gate_valve_open", 1)] := by
  have h := C7_monotonicity .imperial 100 20 6 130 [("gate_valve_open", 1)] [] []
    "gate_valve_open" 8 (by norm_num) (by norm_num) (by norm_num) (by norm_num)
    rfl (by norm_num)
  exact ⟨h.1 100 20 6 130 [] (by norm_num) (by norm_num) (by norm_num),
    h.2.1 150 (by norm_num),
    h.2.2.1 30 (by norm_num),
    h.2.2.2.1 1 2 (by norm_num) (by norm_num),
    h.2.2.2.2.1 140 (by norm_num),
    h.2.2.2.2.2 8 (by norm_num)⟩

/-- C10 witness: an engine holding a previous result but missing `flow_rate`
renders the no-results line after the failed call, although it rendered a
full summary before it. -/
theorem C10_results_cleared_on_failure_witness :
    get_results_summary
        (calculate_pump_sizing ⟨.imperial, default_inputs, some c10_prev_results⟩).1 =
      ["No results to display. Please run calculation."] ∧
    get_results_summary ⟨.imperial, default_inputs, some c10_prev_results⟩ ≠
      ["No results to display. Please run calculation."] := by
  refine ⟨(C10_results_cleared_on_failure ⟨.imperial, default_inputs, some c10_prev_results⟩
    "flow_rate" rfl).2, ?_⟩
  intro h
  simpa [get_results_summary] using congrArg List.length h

theorem digitChar_isDigit {k : ℕ} (hk : k < 10) : (Nat.digitChar k).isDigit = true := by
  interval_cases k <;> decide

/-- Every finite formatted value ends in a point and exactly two digits. -/
theorem format2_two_decimal_shape (x : ℝ) : two_decimal_shape (format2 x) := by
  unfold format2 two_decimal_shape
  refine ⟨((if round_cents x < 0 then "-" else "") ++
      toString ((round_cents x).natAbs / 100)).data,
    Nat.digitChar ((round_cents x).natAbs % 100 / 10),
    Nat.digitChar ((round_cents x).natAbs % 100 % 10), ?_, ?_, ?_⟩
  · simp [String.data_append, two_digit_string, List.append_assoc]
  · exact digitChar_isDigit (by omega)
  · exact digitChar_isDigit (by omega)

/-- C9 counterexample: a complete configuration with zero pump efficiency
stores an infinite required power, which the renderer prints as `inf` — not
as a number with two decimal places — on the third display line. -/
theorem C9_rendering_counterexample :
    ∃ r, (calculate_pump_sizing ⟨.imperial, c9_engine_inputs, none⟩).1.results = some r ∧
      r.required_power = FVal.inf ∧
      format_val r.required_power = "inf" ∧
      (get_results_summary (calculate_pump_sizing ⟨.imperial, c9_engine_inputs, none⟩).1)[2]? =
        some "**Required Power:** inf BHP" ∧
      ¬ two_decimal_shape "inf" := by
  have hmiss : first_missing c9_engine_inputs = none := rfl
  have hfs : calculate_friction_loss_hw .imperial (some 100) 0 (some 0) (some 120) [] =
      (.fin 0, []) :=
    friction_guard_zero _ _ _ _ _ _ (Or.inr (Or.inr (Or.inr (Or.inl rfl))))
  have hshape : ¬ two_decimal_shape "inf" := by
    rintro ⟨p, d1, d2, hdata, -, -⟩
    have hmem : '.' ∈ "inf".data := by
      rw [hdata]; simp
    exact absurd hmem (by decide)
  simp only [calculate_pump_sizing, hmiss, c9_engine_inputs, Option.getD_some, hfs,
    FVal.add, lt_self_iff_false, if_false, get_results_summary]
  exact ⟨_, rfl, rfl, rfl, rfl, hshape⟩

/-- C9 (amended): rendering with no stored result is the single no-results
line; rendering a stored result is the fixed ordered eight-line sequence
(header, TDH, power, separator, breakdown heading, total, suction and
discharge losses), where every finite numeric value is formatted to exactly
two decimal places but the infinite sentinel renders as `inf`; rendering
depends only on the unit system and the stored result (no recomputation),
so rendering the same stored result twice gives identical strings. -/
theorem C9_rendering (e : Engine) (r : Results) (hr : e.results = some r) :
    get_results_summary e =
      ["### Calculation Results",
       "**Total Dynamic Head (TDH):** " ++ format_val r.TDH ++ " " ++
         (match e.unit_system with | .imperial => "feet" | .si => "meters"),
       "**Required Power:** " ++ format_val r.required_power ++ " " ++ r.power_unit,
       "---",
       "#### Head Breakdown",
       "**Total Friction Loss:** " ++ format_val r.hf_total ++ " " ++
         (match e.unit_system with | .imperial => "feet" | .si => "meters"),
       " â€¢  _Suction Loss:_ " ++ format_val r.hf_suction ++ " " ++
         (match e.unit_system with | .imperial => "feet" | .si => "meters"),
       " â€¢  _Discharge Loss:_ " ++ format_val r.hf_discharge ++ " " ++
         (match e.unit_system with | .imperial => "feet" | .si => "meters")] ∧
    (∀ x : ℝ, format_val (.fin x) = format2 x ∧ two_decimal_shape (format2 x)) ∧
    format_val .inf = "inf" ∧
    (∀ e' : Engine, e'.results = e.results → e'.unit_system = e.unit_system →
      get_results_summary e' = get_results_summary e) ∧
    (∀ e' : Engine, e'.results = none →
      get_results_summary e' = ["No results to display. Please run calculation."]) := by
  obtain ⟨u, inp, res⟩ := e
  simp only at hr
  subst hr
  refine ⟨rfl, fun x => ⟨rfl, format2_two_decimal_shape x⟩, rfl, ?_, ?_⟩
  · rintro ⟨u', inp', res'⟩ h1 h2
    simp only at h1 h2
    subst h1; subst h2
    rfl
  · rintro ⟨u', inp', res'⟩ h1
    simp only at h1
    subst h1
    rfl

/-- C9 amended witness: the contract instantiated at a concrete imperial
engine holding a stored result. -/
theorem C9_rendering_witness :
    get_results_summary ⟨.imperial, default_inputs, some c9_prev_results⟩ =
      ["### Calculation Results",
       "**Total Dynamic Head (TDH):** " ++ format_val (FVal.fin 45) ++ " " ++ "feet",
       "**Required Power:** " ++ format_val (FVal.fin 2) ++ " " ++ "BHP",
       "---",
       "#### Head Breakdown",
       "**Total Friction Loss:** " ++ format_val (FVal.fin 0) ++ " " ++ "feet",
       " â€¢  _Suction Loss:_ " ++ format_val (FVal.fin 0) ++ " " ++ "feet",
       " â€¢  _Discharge Loss:_ " ++ format_val (FVal.fin 0) ++ " " ++ "feet"] ∧
    two_decimal_shape (format2 45) ∧
    get_results_summary ⟨.si, default_inputs, none⟩ =
      ["No results to display. Please run calculation."] := by
  have h := C9_rendering ⟨.imperial, default_inputs, some c9_prev_results⟩
    c9_prev_results rfl
  refine ⟨?_, (h.2.1 45).2, h.2.2.2.2 ⟨.si, default_inputs, none⟩ rfl⟩
  rw [h.1]
  rfl
